import Mathlib

/-!
Shallow embedding of the two utility modules of the `ai-starter-kit` repository:

* `utils/eval/dataset.py` — dataset format conversion (JSON passthrough,
  CSV/TXT tabular-to-records) behind an extension-keyed factory;
* `utils/rag/base_components.py` — the `BaseComponents` class: LLM client
  initialization, embedding client initialization, document formatting,
  cross-encoder reranking, and the base-LLM generation chain.

Python strings are `String` (manipulated through their `List Char` data where
the corresponding Python code indexes into the string), machine floats that
only feed configuration records are `Rat`, external I/O (file contents,
environment variables, model inference outputs) enters as explicit parameters,
and Python exceptions are `Except` errors.
-/

/-! ### `os.path.splitext` (posixpath), as called by the converter factory -/

/-- Embedding of Python `str.rfind` for a single character over the string's
characters: the highest index holding `c`, or `-1` when `c` does not occur. -/
def rfindIdx (c : Char) : List Char → Int
  | [] => -1
  | a :: as =>
    let r := rfindIdx c as
    if r ≥ 0 then r + 1 else if a = c then 0 else -1

/-- Embedding of CPython `posixpath.splitext` (via `genericpath._splitext` with
`sep = '/'`, no `altsep`, `extsep = '.'`): split at the last dot when it lies
strictly after the last separator and at least one character of the file name
before it is not a dot; otherwise the extension is empty. -/
def splitext (p : List Char) : List Char × List Char :=
  let sepIndex := rfindIdx '/' p
  let dotIndex := rfindIdx '.' p
  if sepIndex < dotIndex then
    let fname := (p.drop (sepIndex + 1).toNat).take (dotIndex - sepIndex - 1).toNat
    if fname.all (fun ch => ch = '.') then (p, [])
    else (p.take dotIndex.toNat, p.drop dotIndex.toNat)
  else (p, [])

/-! ### `utils/eval/dataset.py` -/

deriving instance DecidableEq for Except

/-- The `ValueError`s raised by the dataset module: `unsupportedFormat` is
`DatasetConverterFactory.create_converter`'s
"Unsupported file type. Please provide a JSON or CSV file.", and
`invalidFormat` is the `load_data` wrappers' "Error loading ... data from ...". -/
inductive DatasetError where
  | unsupportedFormat
  | invalidFormat
deriving DecidableEq

/-- Which concrete `DatasetConverter` subclass the factory instantiates. -/
inductive ConverterChoice where
  | jsonConverter
  | dataFrameConverter
deriving DecidableEq

/-- Embedding of `DatasetConverterFactory.create_converter`'s dispatch:
`os.path.splitext` on the file path, lower-case the extension, pick
`JSONDatasetConverter` for `.json`, `DataFrameDatasetConverter` for `.csv` or
`.txt`, and raise `ValueError` (unsupported file type) otherwise.  The chosen
constructor's file loading is external I/O and is modelled separately. -/
def DatasetConverterFactory.create_converter (filepath : String) :
    Except DatasetError ConverterChoice :=
  let extension : String := ⟨((splitext filepath.data).2).map Char.toLower⟩
  if extension = ".json" then .ok .jsonConverter
  else if extension = ".csv" ∨ extension = ".txt" then .ok .dataFrameConverter
  else .error .unsupportedFormat

/-- JSON values as produced by Python's `json.load`. -/
inductive JsonValue where
  | null
  | boolVal (b : Bool)
  | numVal (n : Int)
  | strVal (s : String)
  | arrVal (elems : List JsonValue)
  | objVal (fields : List (String × JsonValue))

/-- Embedding of `JSONDatasetConverter`: its only state is `self.json_data`,
the structure `json.load` parsed from the input file. -/
structure JSONDatasetConverter where
  json_data : JsonValue

/-- Embedding of `JSONDatasetConverter.__init__` / `load_data`: the external
parse result is the parameter; `None` stands for `FileNotFoundError` or
`json.JSONDecodeError`, both re-raised as `ValueError`. -/
def JSONDatasetConverter.ofLoad (parsed : Option JsonValue) :
    Except DatasetError JSONDatasetConverter :=
  match parsed with
  | none => .error .invalidFormat
  | some j => .ok ⟨j⟩

/-- Embedding of `JSONDatasetConverter.convert`: `return self.json_data`. -/
def JSONDatasetConverter.convert (c : JSONDatasetConverter) : JsonValue :=
  c.json_data

/-- A cell of a loaded pandas DataFrame: an inferred integer or a string. -/
inductive Cell where
  | num (n : Int)
  | str (s : String)
deriving DecidableEq

/-- A loaded pandas DataFrame: named columns and row-major cell data. -/
structure DataFrame where
  columns : List String
  rows : List (List Cell)
deriving DecidableEq

/-- Embedding of `DataFrame.to_dict(orient='records')`: one insertion-ordered
dict per row, mapping each column name to that row's cell. -/
def DataFrame.to_dict_records (df : DataFrame) : List (List (String × Cell)) :=
  df.rows.map (fun row => df.columns.zip row)

/-- Python `str.split(sep)` for a one-character separator: splitting the empty
string yields `[""]`, and no segments are dropped. -/
def splitOnChar (c : Char) : List Char → List (List Char)
  | [] => [[]]
  | a :: as =>
    match splitOnChar c as with
    | [] => if a = c then [[], []] else [[a]]
    | g :: gs => if a = c then [] :: g :: gs else (a :: g) :: gs

/-- Value of a list of decimal digit characters. -/
def digitsToNat (ds : List Char) : Nat :=
  ds.foldl (fun n c => 10 * n + (c.toNat - '0'.toNat)) 0

/-- Decimal integer literal parse: an optional leading `-` then one or more
digits, the grammar pandas recognises as an int64 cell in the inputs modelled
here. Returns `none` on anything else. -/
def parseIntLit (s : String) : Option Int :=
  match s.data with
  | '-' :: ds =>
      if ds ≠ [] ∧ ds.all Char.isDigit then
        some (-(Int.ofNat (digitsToNat ds)))
      else none
  | ds =>
      if ds ≠ [] ∧ ds.all Char.isDigit then
        some (Int.ofNat (digitsToNat ds))
      else none

/-- Pandas dtype inference for one column's raw text cells: a column whose
every cell is a decimal integer literal becomes an integer column, any other
column keeps its cells as strings. -/
def inferColumn (cells : List String) : List Cell :=
  if cells.all (fun s => (parseIntLit s).isSome) then
    cells.map (fun s => .num ((parseIntLit s).getD 0))
  else
    cells.map .str

/-- Model of `pandas.read_csv` restricted to the plain comma-separated inputs
this module feeds it (no quoting or escapes): newline-split the content, skip
blank lines (`skip_blank_lines=True` default), take the first line as the
header, comma-split every line, and infer each column's dtype with
`inferColumn`, mirroring pandas' default inference of integer columns.
Pandas raises on empty input; that external failure is modelled as the empty
DataFrame and never reached by the theorems below. -/
def read_csv (content : String) : DataFrame :=
  let ls := (splitOnChar '\n' content.data).filter (fun l => l ≠ [])
  match ls with
  | [] => ⟨[], []⟩
  | header :: body =>
    let cols : List String := (splitOnChar ',' header).map (fun g => ⟨g⟩)
    let rawRows : List (List String) :=
      body.map (fun l => (splitOnChar ',' l).map (fun g => (⟨g⟩ : String)))
    let colCells : List (List Cell) :=
      (List.range cols.length).map
        (fun j => inferColumn (rawRows.map (fun row => row.getD j "")))
    let rows : List (List Cell) :=
      (List.range rawRows.length).map
        (fun i => colCells.map (fun col => col.getD i (.str "")))
    ⟨cols, rows⟩

/-- Embedding of `DataFrameDatasetConverter`: its only state is
`self.dataframe`, loaded by `pd.read_csv` on the input file. -/
structure DataFrameDatasetConverter where
  dataframe : DataFrame
deriving DecidableEq

/-- Embedding of `DataFrameDatasetConverter.convert`:
`return self.dataframe.to_dict(orient='records')`. -/
def DataFrameDatasetConverter.convert (c : DataFrameDatasetConverter) :
    List (List (String × Cell)) :=
  c.dataframe.to_dict_records

/-! ### `utils/rag/base_components.py` -/

/-- A Langchain `Document`; only its `page_content` is consumed here. -/
structure Document where
  page_content : String
deriving DecidableEq

/-- Python `sep.join(parts)`. -/
def str_join (sep : String) : List String → String
  | [] => ""
  | [s] => s
  | s :: rest => s ++ sep ++ str_join sep rest

/-- Embedding of `BaseComponents._format_docs`:
`"\n\n".join(doc.page_content for doc in docs)`. -/
def format_docs (docs : List Document) : String :=
  str_join "\n\n" (docs.map Document.page_content)

/-- The order in which Python's stable
`sorted(range(len(scores)), key=lambda k: scores[k], reverse=True)` places
index `i` before index `j`: strictly higher score, or equal scores with `i`
first. A linear order on distinct indices, so it determines the sorted output
of any correct sorting algorithm. Cross-encoder scores are reals in the
source; only their ordering matters here, so they are modelled as integers. -/
abbrev rerankRel (scores : List Int) (i j : Nat) : Prop :=
  scores.getD i 0 > scores.getD j 0 ∨ (scores.getD i 0 = scores.getD j 0 ∧ i ≤ j)

instance (scores : List Int) : IsTotal Nat (rerankRel scores) where
  total i j := by
    rcases lt_trichotomy (scores.getD i 0) (scores.getD j 0) with h | h | h
    · exact Or.inr (Or.inl h)
    · rcases Nat.le_total i j with hij | hij
      · exact Or.inl (Or.inr ⟨h, hij⟩)
      · exact Or.inr (Or.inr ⟨h.symm, hij⟩)
    · exact Or.inl (Or.inl h)

instance (scores : List Int) : IsTrans Nat (rerankRel scores) where
  trans i j k hij hjk := by
    rcases hij with h1 | ⟨e1, l1⟩ <;> rcases hjk with h2 | ⟨e2, l2⟩
    · exact Or.inl (h2.trans h1)
    · exact Or.inl (e2 ▸ h1)
    · exact Or.inl (e1 ▸ h2)
    · exact Or.inr ⟨e1.trans e2, l1.trans l2⟩

/-- Embedding of `scores_sorted_idx` in `BaseComponents.rerank_docs`:
`sorted(range(len(scores_list)), key=lambda k: scores_list[k], reverse=True)`.
Python's sort is stable; `rerankRel` builds that stability into a linear
order, under which insertion sort computes the same permutation. -/
def rerank_order (scores : List Int) (n : Nat) : List Nat :=
  List.insertionSort (rerankRel scores) (List.range n)

/-- Embedding of the pure tail of `BaseComponents.rerank_docs`: reorder `docs`
by descending score and keep the first `final_k`. The tokenizer and
cross-encoder forward pass are external inference; their output enters as the
`scores` list, one score per document in input order. -/
def rerank_docs (docs : List Document) (scores : List Int) (final_k : Nat) :
    List Document :=
  let docs_sorted :=
    (rerank_order scores docs.length).map (fun k => docs.getD k ⟨""⟩)
  docs_sorted.take final_k

/-- The `configs["llm"]` section read by `init_llm`. Temperature is a float in
the YAML; it is carried as a rational. -/
structure LLMConfigs where
  sambaverse_model_name : String
  max_tokens_to_generate : Nat
  temperature : Rat
  sambaverse_select_expert : String
deriving DecidableEq

/-- The `configs["prompts"]` section read by `init_base_llm_chain`. -/
structure PromptsConfigs where
  base_llm_prompt : String
deriving DecidableEq

/-- The configuration dictionary, restricted to the keys the embedded
operations read (a read of a missing key would raise `KeyError`; the claims
quantify over configurations that carry these keys). -/
structure Configs where
  api : String
  llm : LLMConfigs
  prompts : PromptsConfigs
deriving DecidableEq

/-- An LLM client as constructed by `init_llm`, recording the constructor
arguments copied from the configuration. -/
inductive LLMClient where
  | sambaverse (sambaverse_model_name : String) (sambaverse_api_key : Option String)
      (do_sample : Bool) (max_tokens_to_generate : Nat) (temperature : Rat)
      (process_prompt : Bool) (select_expert : String)
  | sambastudio (streaming : Bool) (do_sample : Bool) (max_tokens_to_generate : Nat)
      (process_prompt : Bool) (select_expert : String)
deriving DecidableEq

/-- The embedding client: `init_embeddings` always calls
`SambaStudioEmbeddings()` with no arguments, so one constructor suffices. -/
inductive EmbeddingsClient where
  | sambaStudioEmbeddings
deriving DecidableEq

/-- A prompt as returned by Langchain's `load_prompt`, recording the path it
was loaded from; the file read itself is external I/O. -/
inductive Prompt where
  | loaded (path : String)
deriving DecidableEq

/-- The chain `base_llm_prompt | llm | StrOutputParser()` built by
`init_base_llm_chain`; the output parser is a constant component. -/
structure Chain where
  prompt : Prompt
  llm : LLMClient
deriving DecidableEq

/-- Python exceptions surfaced by the embedded `BaseComponents` operations. -/
inductive PyErr where
  | attributeError (name : String)
deriving DecidableEq

/-- The attribute state of a `BaseComponents` object. `__init__` assigns only
`self.configs`; every other attribute, including the never-assigned `confis`
that `init_base_llm_chain` reads, starts absent (`none`). -/
structure BaseComponents where
  configs : Option Configs
  confis : Option Configs
  llm : Option LLMClient
  embeddings : Option EmbeddingsClient
  base_llm_chain : Option Chain
deriving DecidableEq

/-- Python attribute read: `AttributeError` when the attribute is unset. -/
def getAttr {α : Type} (attr : Option α) (name : String) : Except PyErr α :=
  match attr with
  | some a => .ok a
  | none => .error (.attributeError name)

/-- Embedding of `BaseComponents.__init__(configs)`. -/
def BaseComponents.init (configs : Configs) : BaseComponents :=
  { configs := some configs, confis := none, llm := none,
    embeddings := none, base_llm_chain := none }

/-- Embedding of `BaseComponents.init_llm`: branch on `configs["api"]` and
store the matching client in `self.llm`; when the value is neither
`"sambaverse"` nor `"sambastudio"` no branch runs and the object is returned
unchanged. `os.getenv("SAMBAVERSE_API_KEY")` enters as the parameter. -/
def BaseComponents.init_llm (env_api_key : Option String) (b : BaseComponents) :
    Except PyErr BaseComponents :=
  match getAttr b.configs "configs" with
  | .error e => .error e
  | .ok c =>
  if c.api = "sambaverse" then
    .ok { b with llm := some (.sambaverse c.llm.sambaverse_model_name env_api_key
            false c.llm.max_tokens_to_generate c.llm.temperature true
            c.llm.sambaverse_select_expert) }
  else if c.api = "sambastudio" then
    .ok { b with llm := some (.sambastudio true false c.llm.max_tokens_to_generate
            false c.llm.sambaverse_select_expert) }
  else
    .ok b

/-- Embedding of `BaseComponents.init_embeddings`: unconditionally
`self.embeddings = SambaStudioEmbeddings()`, reading nothing from the
configuration. -/
def BaseComponents.init_embeddings (b : BaseComponents) : BaseComponents :=
  { b with embeddings := some .sambaStudioEmbeddings }

/-- Embedding of `BaseComponents.init_base_llm_chain`: evaluate
`load_prompt(repo_dir + "/" + self.confis["prompts"]["base_llm_prompt"])` —
whose argument reads the attribute `confis` first — then compose the chain
with `self.llm` and store it. -/
def BaseComponents.init_base_llm_chain (repo_dir : String) (b : BaseComponents) :
    Except PyErr BaseComponents :=
  match getAttr b.confis "confis" with
  | .error e => .error e
  | .ok confis =>
  match getAttr b.llm "llm" with
  | .error e => .error e
  | .ok llm =>
  let chain := Chain.mk (.loaded (repo_dir ++ "/" ++ confis.prompts.base_llm_prompt)) llm
  .ok { b with base_llm_chain := some chain }

/-- Embedding of `BaseComponents.llm_generation`: read `state["question"]`,
invoke `self.base_llm_chain` on it, and return the `question`/`generation`
pair. The chain's LLM call is external; its semantics enter as `invoke`. -/
def BaseComponents.llm_generation (invoke : Chain → String → String)
    (b : BaseComponents) (question : String) : Except PyErr (String × String) :=
  match getAttr b.base_llm_chain "base_llm_chain" with
  | .error e => .error e
  | .ok chain => .ok (question, invoke chain question)

/-- The `BaseComponents` states reachable from construction by the operations
that assign attributes (`init_llm`, `init_embeddings`,
`init_base_llm_chain`); the remaining methods assign no attribute. -/
inductive Reachable : BaseComponents → Prop where
  | init (configs : Configs) : Reachable (BaseComponents.init configs)
  | init_llm (env_api_key : Option String) (b b' : BaseComponents) :
      Reachable b → b.init_llm env_api_key = .ok b' → Reachable b'
  | init_embeddings (b : BaseComponents) :
      Reachable b → Reachable b.init_embeddings
  | init_base_llm_chain (repo_dir : String) (b b' : BaseComponents) :
      Reachable b → b.init_base_llm_chain repo_dir = .ok b' → Reachable b'

/-! ### Helper lemmas -/

theorem map_getD_range {α : Type} (l : List α) (d : α) :
    (List.range l.length).map (fun i => l.getD i d) = l := by
  induction l with
  | nil => rfl
  | cons a t ih =>
      rw [List.length_cons, List.range_succ_eq_map, List.map_cons, List.map_map]
      exact congrArg (a :: ·) ih

theorem read_csv_rectangular (content : String) :
    ∀ row ∈ (read_csv content).rows, row.length = (read_csv content).columns.length := by
  unfold read_csv
  cases h : (splitOnChar '\n' content.data).filter (fun l => l ≠ []) with
  | nil => intro row hrow; simp at hrow
  | cons header body =>
      intro row hrow
      simp only [List.mem_map, List.mem_range] at hrow
      obtain ⟨i, _, rfl⟩ := hrow
      simp

/-! ### Claim theorems -/

/-- C1: `DatasetConverterFactory.create_converter` inspects the file extension
(the `os.path.splitext` suffix) case-insensitively: `.json` yields the JSON
converter, `.csv` or `.txt` the DataFrame converter, and any other extension
fails with the unsupported-format `ValueError`, never falling back. -/
theorem claim_C1 (filepath : String) :
    ((⟨((splitext filepath.data).2).map Char.toLower⟩ : String) = ".json" →
      DatasetConverterFactory.create_converter filepath = .ok .jsonConverter) ∧
    ((⟨((splitext filepath.data).2).map Char.toLower⟩ : String) = ".csv" ∨
        (⟨((splitext filepath.data).2).map Char.toLower⟩ : String) = ".txt" →
      DatasetConverterFactory.create_converter filepath = .ok .dataFrameConverter) ∧
    ((⟨((splitext filepath.data).2).map Char.toLower⟩ : String) ≠ ".json" ∧
        (⟨((splitext filepath.data).2).map Char.toLower⟩ : String) ≠ ".csv" ∧
        (⟨((splitext filepath.data).2).map Char.toLower⟩ : String) ≠ ".txt" →
      DatasetConverterFactory.create_converter filepath = .error .unsupportedFormat) := by
  refine ⟨fun h => ?_, fun h => ?_, fun h => ?_⟩
  · simp [DatasetConverterFactory.create_converter, h]
  · rcases h with h | h <;> simp [DatasetConverterFactory.create_converter, h]
  · simp [DatasetConverterFactory.create_converter, h.1, h.2.1, h.2.2]

/-- Witness for C1 at the paths `data.JSON`, `rows.TXT` and `model.yaml`. -/
theorem claim_C1_witness :
    DatasetConverterFactory.create_converter "data.JSON" = .ok .jsonConverter ∧
    DatasetConverterFactory.create_converter "rows.TXT" = .ok .dataFrameConverter ∧
    DatasetConverterFactory.create_converter "model.yaml" = .error .unsupportedFormat :=
  ⟨(claim_C1 "data.JSON").1 (by decide),
   (claim_C1 "rows.TXT").2.1 (Or.inr (by decide)),
   (claim_C1 "model.yaml").2.2 ⟨by decide, by decide, by decide⟩⟩

/-- C2: on a parsed JSON array, `JSONDatasetConverter.convert` returns exactly
the parsed structure unchanged; indeed it is the identity on every parsed
structure, so no schema validation touches the array's elements. -/
theorem claim_C2 :
    (∀ elems : List JsonValue,
      (JSONDatasetConverter.mk (JsonValue.arrVal elems)).convert = JsonValue.arrVal elems) ∧
    (∀ j : JsonValue, (JSONDatasetConverter.mk j).convert = j) :=
  ⟨fun _ => rfl, fun _ => rfl⟩

/-- C3: `DataFrameDatasetConverter.convert` on a loaded CSV returns one Record
per data row, and every Record has exactly one field per column, named by the
column headers in order. -/
theorem claim_C3 (content : String) :
    (DataFrameDatasetConverter.mk (read_csv content)).convert.length =
      (read_csv content).rows.length ∧
    ∀ r ∈ (DataFrameDatasetConverter.mk (read_csv content)).convert,
      r.length = (read_csv content).columns.length ∧
      r.map Prod.fst = (read_csv content).columns := by
  constructor
  · simp [DataFrameDatasetConverter.convert, DataFrame.to_dict_records]
  · intro r hr
    simp only [DataFrameDatasetConverter.convert, DataFrame.to_dict_records,
      List.mem_map] at hr
    obtain ⟨row, hrow, rfl⟩ := hr
    have hlen := read_csv_rectangular content row hrow
    constructor
    · rw [List.length_zip, hlen, Nat.min_self]
    · exact List.map_fst_zip _ _ (le_of_eq hlen.symm)

/-- Witness for C3 at the file content `a,b\n1,x`. -/
theorem claim_C3_witness :
    (DataFrameDatasetConverter.mk (read_csv "a,b\n1,x")).convert.length =
      (read_csv "a,b\n1,x").rows.length ∧
    ([("a", Cell.num 1), ("b", Cell.str "x")]).length =
      (read_csv "a,b\n1,x").columns.length ∧
    ([("a", Cell.num 1), ("b", Cell.str "x")]).map Prod.fst =
      (read_csv "a,b\n1,x").columns :=
  ⟨(claim_C3 "a,b\n1,x").1,
   ((claim_C3 "a,b\n1,x").2 _ (by decide)).1,
   ((claim_C3 "a,b\n1,x").2 _ (by decide)).2⟩

/-- C4 counterexample: on `data.csv` with header `x,y` and the single row
`1,2`, the converted Record does not hold the strings `"1"`, `"2"` — pandas'
dtype inference parses the column values as integers. -/
theorem claim_C4_counterexample :
    (DataFrameDatasetConverter.mk (read_csv "x,y\n1,2")).convert ≠
      [[("x", Cell.str "1"), ("y", Cell.str "2")]] := by
  decide

/-- C4 amended: on `data.csv` with header `x,y` and the single row `1,2`,
`convert()` returns the single Record mapping `x` to the integer `1` and `y`
to the integer `2`: field values keep pandas' inferred types and are not
necessarily strings. -/
theorem claim_C4_amended :
    (DataFrameDatasetConverter.mk (read_csv "x,y\n1,2")).convert =
      [[("x", Cell.num 1), ("y", Cell.num 2)]] := by
  decide

/-- C5: `format_docs` concatenates the documents' page contents in order,
separated by a blank line (`"\n\n"`): it maps `[]` to `""`, a singleton to
exactly its page content, and prepends `page_content ++ "\n\n"` ahead of the
rest for longer lists. -/
theorem claim_C5 :
    format_docs [] = "" ∧
    (∀ d : Document, format_docs [d] = d.page_content) ∧
    (∀ (d e : Document) (t : List Document),
      format_docs (d :: e :: t) = d.page_content ++ "\n\n" ++ format_docs (e :: t)) :=
  ⟨rfl, fun _ => rfl, fun _ _ _ => rfl⟩

/-- C6: when the cross-encoder scores are strictly decreasing in input order
(one score per document), `rerank_docs` returns the documents unchanged in
order truncated to the first `final_k`, and a `final_k` larger than the input
length returns all documents. -/
theorem claim_C6 (docs : List Document) (scores : List Int) (final_k : Nat)
    (hlen : scores.length = docs.length) (hdec : scores.Chain' (· > ·)) :
    rerank_docs docs scores final_k = docs.take final_k ∧
    (docs.length < final_k → rerank_docs docs scores final_k = docs) := by
  have hp : scores.Pairwise (· > ·) := List.chain'_iff_pairwise.mp hdec
  have hsorted : List.Sorted (rerankRel scores) (List.range docs.length) := by
    refine (List.pairwise_lt_range docs.length).imp_of_mem ?_
    intro i j hi hj hij
    rw [List.mem_range] at hi hj
    have hi' : i < scores.length := hlen ▸ hi
    have hj' : j < scores.length := hlen ▸ hj
    left
    rw [List.getD_eq_getElem scores 0 hi', List.getD_eq_getElem scores 0 hj']
    exact List.pairwise_iff_getElem.mp hp i j hi' hj' hij
  have horder : rerank_order scores docs.length = List.range docs.length :=
    hsorted.insertionSort_eq
  have hmap : (List.range docs.length).map (fun k => docs.getD k ⟨""⟩) = docs :=
    map_getD_range docs ⟨""⟩
  refine ⟨?_, fun hk => ?_⟩
  · rw [rerank_docs, horder, hmap]
  · rw [rerank_docs, horder, hmap]
    exact List.take_of_length_le (le_of_lt hk)

/-- Witness for C6: two documents with scores `[5, 3]`, at `final_k = 1`
and at `final_k = 5 > 2`. -/
theorem claim_C6_witness :
    ([5, 3] : List Int).length = ([⟨"p"⟩, ⟨"q"⟩] : List Document).length ∧
    ([5, 3] : List Int).Chain' (· > ·) ∧
    rerank_docs [⟨"p"⟩, ⟨"q"⟩] [5, 3] 1 = [⟨"p"⟩] ∧
    rerank_docs [⟨"p"⟩, ⟨"q"⟩] [5, 3] 5 = [⟨"p"⟩, ⟨"q"⟩] :=
  ⟨by decide, List.chain'_pair.mpr (by decide),
   (claim_C6 [⟨"p"⟩, ⟨"q"⟩] [5, 3] 1 (by decide)
     (List.chain'_pair.mpr (by decide))).1.trans (by decide),
   (claim_C6 [⟨"p"⟩, ⟨"q"⟩] [5, 3] 5 (by decide)
     (List.chain'_pair.mpr (by decide))).2 (by decide)⟩

/-- C9: `rerank_docs` maps the index permutation `rerank_order` — the
embedding of `scores_sorted_idx` — over the documents and truncates, and that
permutation is stable on ties: whenever two indices carry equal scores, the
earlier input index comes first in the reranked order, so equal-score
documents keep their original relative order. -/
theorem claim_C9 (docs : List Document) (scores : List Int) (final_k : Nat) :
    rerank_docs docs scores final_k =
      ((rerank_order scores docs.length).map (fun k => docs.getD k ⟨""⟩)).take final_k ∧
    (rerank_order scores docs.length).Pairwise
      (fun i j => scores.getD i 0 = scores.getD j 0 → i < j) := by
  refine ⟨rfl, ?_⟩
  have hs : (rerank_order scores docs.length).Pairwise (rerankRel scores) :=
    List.sorted_insertionSort (rerankRel scores) (List.range docs.length)
  have hn : (rerank_order scores docs.length).Pairwise (· ≠ ·) :=
    ((List.perm_insertionSort (rerankRel scores) (List.range docs.length)).nodup_iff).mpr
      (List.nodup_range docs.length)
  refine (hs.and hn).imp ?_
  rintro i j ⟨hr | ⟨_, hle⟩, hne⟩ he
  · exact absurd (he ▸ hr) (lt_irrefl _)
  · exact lt_of_le_of_ne hle hne

/-- C7: when the configuration's `api` value is neither `"sambaverse"` nor
`"sambastudio"`, `init_llm` raises no error, leaves `self.llm` as it was, and
modifies no attribute of the object at all. -/
theorem claim_C7 (env_api_key : Option String) (b : BaseComponents) (c : Configs)
    (hc : b.configs = some c)
    (h1 : c.api ≠ "sambaverse") (h2 : c.api ≠ "sambastudio") :
    b.init_llm env_api_key = .ok b := by
  rw [BaseComponents.init_llm, hc]
  simp [getAttr, h1, h2]

/-- Witness for C7 at a freshly constructed object whose `api` is `"openai"`. -/
theorem claim_C7_witness :
    (BaseComponents.init ⟨"openai", ⟨"m", 128, 0, "e"⟩, ⟨"p"⟩⟩).configs =
      some ⟨"openai", ⟨"m", 128, 0, "e"⟩, ⟨"p"⟩⟩ ∧
    ("openai" : String) ≠ "sambaverse" ∧ ("openai" : String) ≠ "sambastudio" ∧
    (BaseComponents.init ⟨"openai", ⟨"m", 128, 0, "e"⟩, ⟨"p"⟩⟩).init_llm none =
      .ok (BaseComponents.init ⟨"openai", ⟨"m", 128, 0, "e"⟩, ⟨"p"⟩⟩) :=
  ⟨rfl, by decide, by decide, claim_C7 none _ _ rfl (by decide) (by decide)⟩

/-- C8: `init_embeddings` stores the identically constructed embedding client
on any two objects, whatever their configurations — there is no CPU fallback
path; the stored client is always the argumentless `SambaStudioEmbeddings()`. -/
theorem claim_C8 (b₁ b₂ : BaseComponents) :
    b₁.init_embeddings.embeddings = b₂.init_embeddings.embeddings ∧
    b₁.init_embeddings.embeddings = some EmbeddingsClient.sambaStudioEmbeddings :=
  ⟨rfl, rfl⟩

/-- On every reachable `BaseComponents` state, the attribute `confis` read by
`init_base_llm_chain` and the attribute `base_llm_chain` read by
`llm_generation` are both unset: no operation ever assigns them (the
constructor assigns `configs`, and `init_base_llm_chain` fails before its own
assignment). -/
theorem reachable_invariant (b : BaseComponents) (h : Reachable b) :
    b.confis = none ∧ b.base_llm_chain = none := by
  induction h with
  | init configs => exact ⟨rfl, rfl⟩
  | init_llm env_api_key b b' _ heq ih =>
      rw [BaseComponents.init_llm] at heq
      cases hcfg : b.configs with
      | none => rw [hcfg] at heq; simp [getAttr] at heq
      | some c =>
          rw [hcfg] at heq
          simp only [getAttr] at heq
          split_ifs at heq <;> rw [Except.ok.injEq] at heq <;> subst heq <;>
            exact ⟨ih.1, ih.2⟩
  | init_embeddings b _ ih => exact ⟨ih.1, ih.2⟩
  | init_base_llm_chain repo_dir b b' _ heq ih =>
      rw [BaseComponents.init_base_llm_chain, ih.1] at heq
      simp [getAttr] at heq

/-- C10: initializing the base LLM chain always fails — on every object state
reachable through the class's operations, `init_base_llm_chain` raises
`AttributeError` on the never-assigned attribute `confis` — and therefore
`llm_generation` can never succeed after a fresh construction sequence: its
`base_llm_chain` attribute is never set and it raises `AttributeError`. -/
theorem claim_C10 (b : BaseComponents) (h : Reachable b) :
    (∀ repo_dir : String,
      b.init_base_llm_chain repo_dir = .error (.attributeError "confis")) ∧
    (∀ (invoke : Chain → String → String) (question : String),
      b.llm_generation invoke question = .error (.attributeError "base_llm_chain")) := by
  obtain ⟨h1, h2⟩ := reachable_invariant b h
  constructor
  · intro repo_dir
    rw [BaseComponents.init_base_llm_chain, h1]
    rfl
  · intro invoke question
    rw [BaseComponents.llm_generation, h2]
    rfl

/-- Witness for C10 at a freshly constructed object. -/
theorem claim_C10_witness :
    (BaseComponents.init ⟨"sambastudio", ⟨"m", 128, 0, "e"⟩, ⟨"p"⟩⟩).init_base_llm_chain
      "repo" = .error (.attributeError "confis") ∧
    (BaseComponents.init ⟨"sambastudio", ⟨"m", 128, 0, "e"⟩, ⟨"p"⟩⟩).llm_generation
      (fun _ q => q) "hi" = .error (.attributeError "base_llm_chain") :=
  ⟨(claim_C10 _ (Reachable.init _)).1 "repo",
   (claim_C10 _ (Reachable.init _)).2 (fun _ q => q) "hi"⟩
